import Mathlib

/-!
Shallow embedding of the `pool` package (generic_pool.go, the `PoolObject`
variant): a bounded object pool with lazy creation, TTL eviction and a
shutdown drain.  Go's impure environment is made explicit:

* the current wall-clock time (`time.Now().Unix()`) is a parameter `now : Int`;
* the buffered channel `pool chan PoolObject` is a list `poolBuf` together
  with its capacity `poolCap` and a `poolChClosed` flag; a receive on a
  closed empty channel yields the zero value, a send on a closed channel or a
  second `close` is a runtime panic, and a blocking receive/send on an empty/
  full open channel blocks — these outcomes are the `GoResult` constructors;
* the impure factory is a stream `factoryFunc : Nat → Except ε α` of results
  consumed via the call counter `factoryCalls` kept in the pool state;
* `closeCalls` is a ghost counter of destructor invocations.
-/

namespace GoPool

/-- `PoolObject`: the wrapped resource plus its creation timestamp. -/
structure PoolObject (α : Type) where
  CreateTime : Int
  Object : α
deriving DecidableEq, Repr, Inhabited

/-- `PoolConfig`: construction-time configuration. -/
structure PoolConfig (α ε : Type) where
  Min : Int
  Max : Int
  LiftTime : Int
  FactoryFunc : Nat → Except ε α
  CloseFunc : α → Option ε

/-- The pool's error values (`ErrInvalidConfig`, `ErrPoolClosed`,
`ErrFactoryFunc`) plus `external e` for an error of the caller-supplied
factory/destructor propagated verbatim. -/
inductive PoolErr (ε : Type) where
  | invalidConfig : PoolErr ε
  | poolClosed : PoolErr ε
  | factoryFunc : PoolErr ε
  | external : ε → PoolErr ε
deriving DecidableEq, Repr

/-- `GenericPool` state. -/
structure GenericPool (α ε : Type) where
  poolBuf : List (PoolObject α)
  poolCap : Nat
  poolChClosed : Bool
  maxCap : Int
  minCap : Int
  curNum : Int
  closed : Bool
  maxLifeTime : Int
  factoryFunc : Nat → Except ε α
  closeFunc : α → Option ε
  factoryCalls : Nat
  closeCalls : Nat

/-- Outcome of one pool operation: a normal return (`ok`), an error return
(`err`), a blocking wait that never returns in a sequential run (`blocked`),
a runtime panic (`panicked`), or fuel exhaustion standing for a genuinely
diverging retry loop (`noFuel`).  Each constructor carries the pool state at
that point. -/
inductive GoResult (σ β ε : Type) where
  | ok : σ → β → GoResult σ β ε
  | err : σ → ε → GoResult σ β ε
  | blocked : σ → GoResult σ β ε
  | panicked : σ → GoResult σ β ε
  | noFuel : σ → GoResult σ β ε

/-- The pool state carried by a `GoResult`. -/
def GoResult.state : GoResult σ β ε → σ
  | .ok s _ => s
  | .err s _ => s
  | .blocked s => s
  | .panicked s => s
  | .noFuel s => s

/-- The warm-up loop of `NewGenericPool`: `n` iterations, each invoking the
factory once; a failure is skipped, a success appends a `PoolObject` stamped
with `nowTime`.  Returns the created objects in order and the final factory
call counter. -/
def warmupLoop (fac : Nat → Except ε α) (nowTime : Int) (calls : Nat) :
    Nat → List (PoolObject α) × Nat
  | 0 => ([], calls)
  | Nat.succ n =>
    match fac calls with
    | .error _ => warmupLoop fac nowTime (calls + 1) n
    | .ok obj =>
      let r := warmupLoop fac nowTime (calls + 1) n
      (⟨nowTime, obj⟩ :: r.1, r.2)

/-- `NewGenericPool`: validates the configuration, then warms up.  Returns
the pool (when one is returned at all) and the error value, mirroring Go's
`(p, err)` pair: `(nil, ErrInvalidConfig)`, `(p, ErrFactoryFunc)` when every
warm-up call failed, or `(p, nil)`. -/
def NewGenericPool (config : PoolConfig α ε) (nowTime : Int) :
    Option (GenericPool α ε) × Option (PoolErr ε) :=
  if config.Max ≤ 0 ∨ config.Min > config.Max then
    (none, some .invalidConfig)
  else
    let w := warmupLoop config.FactoryFunc nowTime 0 config.Min.toNat
    let p : GenericPool α ε :=
      { poolBuf := w.1
        poolCap := config.Max.toNat
        poolChClosed := false
        maxCap := config.Max
        minCap := config.Min
        curNum := (w.1.length : Int)
        closed := false
        maxLifeTime := config.LiftTime
        factoryFunc := config.FactoryFunc
        closeFunc := config.CloseFunc
        factoryCalls := w.2
        closeCalls := 0 }
    if p.curNum = 0 then (some p, some .factoryFunc) else (some p, none)

/-- `isLiftTimeOut`: a non-positive `maxLifeTime` never expires; otherwise
the object is expired when `CreateTime + maxLifeTime ≤ now`. -/
def isLiftTimeOut (p : GenericPool α ε) (obj : PoolObject α) (now : Int) : Bool :=
  if p.maxLifeTime ≤ 0 then false
  else decide (obj.CreateTime + p.maxLifeTime ≤ now)

/-- `getOrCreate`: non-blocking take from the channel (a closed empty channel
is ready with the zero value); else, under the lock, a blocking take when at
capacity, or a factory call creating a fresh object stamped `now`. -/
def getOrCreate [Inhabited α] (p : GenericPool α ε) (now : Int) :
    GoResult (GenericPool α ε) (PoolObject α) (PoolErr ε) :=
  match p.poolBuf with
  | obj :: rest => .ok { p with poolBuf := rest } obj
  | [] =>
    if p.poolChClosed then
      .ok p default
    else if p.maxCap ≤ p.curNum then
      .blocked p
    else
      match p.factoryFunc p.factoryCalls with
      | .error e => .err { p with factoryCalls := p.factoryCalls + 1 } (.external e)
      | .ok obj =>
        .ok { p with factoryCalls := p.factoryCalls + 1, curNum := p.curNum + 1 }
          ⟨now, obj⟩

/-- The retry loop of `Acquire`: discard an expired resource and retry,
otherwise return it.  Fuel bounds the iterations; `noFuel` marks the one
state (closed empty channel delivering an expired zero value forever) where
Go's loop diverges. -/
def acquireLoop [Inhabited α] (now : Int) :
    Nat → GenericPool α ε → GoResult (GenericPool α ε) (PoolObject α) (PoolErr ε)
  | 0, p => .noFuel p
  | Nat.succ n, p =>
    match getOrCreate p now with
    | .ok p' obj =>
      if isLiftTimeOut p' obj now then acquireLoop now n p' else .ok p' obj
    | .err s e => .err s e
    | .blocked s => .blocked s
    | .panicked s => .panicked s
    | .noFuel s => .noFuel s

/-- `Acquire`: fail fast when the pool is closed, then run the retry loop.
`poolBuf.length + 1` units of fuel cover every terminating run, since each
retry consumes one buffered object and a freshly created object is never
expired at its own creation instant. -/
def Acquire [Inhabited α] (p : GenericPool α ε) (now : Int) :
    GoResult (GenericPool α ε) (PoolObject α) (PoolErr ε) :=
  if p.closed then .err p .poolClosed
  else acquireLoop now (p.poolBuf.length + 1) p

/-- `Release`: fail when closed; silently drop an expired resource; otherwise
send it back onto the channel (panicking if the channel was closed by a
failed shutdown, blocking if the buffer is full). -/
def Release (p : GenericPool α ε) (obj : PoolObject α) (now : Int) :
    GoResult (GenericPool α ε) Unit (PoolErr ε) :=
  if p.closed then .err p .poolClosed
  else if isLiftTimeOut p obj now then .ok p ()
  else if p.poolChClosed then .panicked p
  else if p.poolCap ≤ p.poolBuf.length then .blocked p
  else .ok { p with poolBuf := p.poolBuf ++ [obj] } ()

/-- `Close`: invoke the destructor; on failure propagate its error leaving
`curNum` unchanged, on success decrement `curNum`. -/
def Close (p : GenericPool α ε) (obj : PoolObject α) :
    GoResult (GenericPool α ε) Unit (PoolErr ε) :=
  match p.closeFunc obj.Object with
  | some e => .err { p with closeCalls := p.closeCalls + 1 } (.external e)
  | none => .ok { p with closeCalls := p.closeCalls + 1, curNum := p.curNum - 1 } ()

/-- Outcome of the shutdown drain over the buffered objects. -/
structure DrainOut (α ε : Type) where
  remaining : List (PoolObject α)
  drained : Nat
  calls : Nat
  firstErr : Option ε

/-- The drain of `Shutdown`: destroy buffered objects in order, stopping at
the first destructor failure. -/
def drainLoop (cf : α → Option ε) : List (PoolObject α) → DrainOut α ε
  | [] => ⟨[], 0, 0, none⟩
  | obj :: rest =>
    match cf obj.Object with
    | some e => ⟨rest, 0, 1, some e⟩
    | none =>
      let r := drainLoop cf rest
      ⟨r.remaining, r.drained + 1, r.calls + 1, r.firstErr⟩

/-- `Shutdown`: fail when already closed; `close(p.pool)` (a panic if the
channel is already closed, as after a failed shutdown); drain the buffer,
decrementing `curNum` per destroyed object; the first destructor failure
aborts with the channel closed but `closed` still false; on full success set
`closed := true`. -/
def Shutdown (p : GenericPool α ε) :
    GoResult (GenericPool α ε) Unit (PoolErr ε) :=
  if p.closed then .err p .poolClosed
  else if p.poolChClosed then .panicked p
  else
    let d := drainLoop p.closeFunc p.poolBuf
    match d.firstErr with
    | some e =>
      .err { p with poolChClosed := true, poolBuf := d.remaining,
                    curNum := p.curNum - (d.drained : Int),
                    closeCalls := p.closeCalls + d.calls } (.external e)
    | none =>
      .ok { p with poolChClosed := true, poolBuf := [],
                   curNum := p.curNum - (d.drained : Int),
                   closeCalls := p.closeCalls + d.calls, closed := true } ()

/-- `Len`: number of buffered (idle) objects. -/
def Len (p : GenericPool α ε) : Nat := p.poolBuf.length

/-- `IsClosed`. -/
def IsClosed (p : GenericPool α ε) : Bool := p.closed

/-- One pool operation applied with arbitrary arguments, relating a state to
the state embedded in the operation's outcome. -/
inductive Step [Inhabited α] : GenericPool α ε → GenericPool α ε → Prop where
  | acquire (p : GenericPool α ε) (now : Int) : Step p (Acquire p now).state
  | release (p : GenericPool α ε) (obj : PoolObject α) (now : Int) :
      Step p (Release p obj now).state
  | close (p : GenericPool α ε) (obj : PoolObject α) : Step p (Close p obj).state
  | shutdown (p : GenericPool α ε) : Step p (Shutdown p).state

/-- States reachable from a construction that returned a pool, by any
sequence of operations. -/
inductive Reachable [Inhabited α] : GenericPool α ε → Prop where
  | init (config : PoolConfig α ε) (now : Int) (p : GenericPool α ε) :
      (NewGenericPool config now).1 = some p → Reachable p
  | step (p q : GenericPool α ε) : Reachable p → Step p q → Reachable q

/-! ### Helper lemmas -/

theorem getOrCreate_ok_maxLifeTime [Inhabited α] {p q : GenericPool α ε} {now : Int}
    {o : PoolObject α} (h : getOrCreate p now = .ok q o) :
    q.maxLifeTime = p.maxLifeTime := by
  unfold getOrCreate at h
  split at h
  · cases h; rfl
  · split at h
    · cases h; rfl
    · split at h
      · cases h
      · split at h
        · cases h
        · cases h; rfl

theorem acquireLoop_ok_maxLifeTime [Inhabited α] {now : Int} :
    ∀ (fuel : Nat) {p q : GenericPool α ε} {o : PoolObject α},
      acquireLoop now fuel p = .ok q o → q.maxLifeTime = p.maxLifeTime
  | 0, p, q, o, h => by simp [acquireLoop] at h
  | Nat.succ n, p, q, o, h => by
    unfold acquireLoop at h
    split at h
    case _ p' obj heq =>
      split at h
      · exact (acquireLoop_ok_maxLifeTime n h).trans (getOrCreate_ok_maxLifeTime heq)
      · cases h; exact getOrCreate_ok_maxLifeTime heq
    all_goals cases h

theorem acquireLoop_ok_not_timeout [Inhabited α] {now : Int} :
    ∀ (fuel : Nat) {p q : GenericPool α ε} {o : PoolObject α},
      acquireLoop now fuel p = .ok q o → isLiftTimeOut q o now = false
  | 0, p, q, o, h => by simp [acquireLoop] at h
  | Nat.succ n, p, q, o, h => by
    unfold acquireLoop at h
    split at h
    case _ p' obj heq =>
      split at h
      case isTrue => exact acquireLoop_ok_not_timeout n h
      case isFalse hexp => cases h; simpa using hexp
    all_goals cases h

theorem warmupLoop_length_le (fac : Nat → Except ε α) (t : Int) :
    ∀ (n c : Nat), (warmupLoop fac t c n).1.length ≤ n
  | 0, c => by simp [warmupLoop]
  | Nat.succ n, c => by
    have ih := warmupLoop_length_le fac t n (c + 1)
    unfold warmupLoop
    cases h : fac c with
    | error e => simp [h]; omega
    | ok obj => simp [h]; omega

theorem warmupLoop_calls (fac : Nat → Except ε α) (t : Int) :
    ∀ (n c : Nat), (warmupLoop fac t c n).2 = c + n
  | 0, c => by simp [warmupLoop]
  | Nat.succ n, c => by
    have ih := warmupLoop_calls fac t n (c + 1)
    unfold warmupLoop
    cases h : fac c with
    | error e => simp [h]; omega
    | ok obj => simp [h]; omega

/-- The pool record built by a `NewGenericPool` call that passed validation. -/
def mkWarm (config : PoolConfig α ε) (nowTime : Int) : GenericPool α ε :=
  { poolBuf := (warmupLoop config.FactoryFunc nowTime 0 config.Min.toNat).1
    poolCap := config.Max.toNat
    poolChClosed := false
    maxCap := config.Max
    minCap := config.Min
    curNum := ((warmupLoop config.FactoryFunc nowTime 0 config.Min.toNat).1.length : Int)
    closed := false
    maxLifeTime := config.LiftTime
    factoryFunc := config.FactoryFunc
    closeFunc := config.CloseFunc
    factoryCalls := (warmupLoop config.FactoryFunc nowTime 0 config.Min.toNat).2
    closeCalls := 0 }

theorem NewGenericPool_some_inv {config : PoolConfig α ε} {now : Int}
    {p : GenericPool α ε} (h : (NewGenericPool config now).1 = some p) :
    0 < config.Max ∧ config.Min ≤ config.Max ∧ p = mkWarm config now := by
  unfold NewGenericPool at h
  by_cases hv : (config.Max ≤ 0 ∨ config.Min > config.Max)
  · rw [if_pos hv] at h
    simp at h
  · rw [if_neg hv] at h
    push_neg at hv
    refine ⟨by omega, by omega, ?_⟩
    dsimp only at h
    split at h <;> · simp only [Option.some.injEq] at h; exact h.symm

theorem NewGenericPool_eq (config : PoolConfig α ε) (now : Int)
    (hmax : 0 < config.Max) (hmm : config.Min ≤ config.Max) :
    NewGenericPool config now =
      (some (mkWarm config now),
        if (mkWarm config now).curNum = 0 then some PoolErr.factoryFunc else none) := by
  have hv : ¬ (config.Max ≤ 0 ∨ config.Min > config.Max) := by omega
  unfold NewGenericPool
  rw [if_neg hv]
  dsimp only
  split
  case isTrue h0 =>
    rw [if_pos (show (mkWarm config now).curNum = 0 from h0)]
    rfl
  case isFalse h0 =>
    rw [if_neg (show ¬ (mkWarm config now).curNum = 0 from h0)]
    rfl

theorem getOrCreate_state_curNum [Inhabited α] (p : GenericPool α ε) (now : Int) :
    (getOrCreate p now).state.maxCap = p.maxCap ∧
    ((getOrCreate p now).state.curNum = p.curNum ∨
      ((getOrCreate p now).state.curNum = p.curNum + 1 ∧ p.curNum < p.maxCap)) := by
  unfold getOrCreate
  split
  · simp [GoResult.state]
  · split
    · simp [GoResult.state]
    · split
      · simp [GoResult.state]
      · split
        · simp [GoResult.state]
        · rename_i hle _ _
          simp [GoResult.state]
          omega

theorem acquireLoop_state_curNum [Inhabited α] (now : Int) :
    ∀ (fuel : Nat) (p : GenericPool α ε), p.curNum ≤ p.maxCap →
      (acquireLoop now fuel p).state.curNum ≤ (acquireLoop now fuel p).state.maxCap
  | 0, p, h => by simpa [acquireLoop, GoResult.state] using h
  | Nat.succ n, p, h => by
    have hg := getOrCreate_state_curNum p now
    unfold acquireLoop
    split
    · rename_i p' obj heq
      rw [heq] at hg
      simp [GoResult.state] at hg
      have hp' : p'.curNum ≤ p'.maxCap := by omega
      split
      · exact acquireLoop_state_curNum now n p' hp'
      · simpa [GoResult.state] using hp'
    · rename_i s e heq
      rw [heq] at hg; simp [GoResult.state] at hg ⊢; omega
    · rename_i s heq
      rw [heq] at hg; simp [GoResult.state] at hg ⊢; omega
    · rename_i s heq
      rw [heq] at hg; simp [GoResult.state] at hg ⊢; omega
    · rename_i s heq
      rw [heq] at hg; simp [GoResult.state] at hg ⊢; omega

theorem Acquire_state_curNum [Inhabited α] (p : GenericPool α ε) (now : Int)
    (h : p.curNum ≤ p.maxCap) :
    (Acquire p now).state.curNum ≤ (Acquire p now).state.maxCap := by
  unfold Acquire
  split
  · simpa [GoResult.state] using h
  · exact acquireLoop_state_curNum now _ p h

theorem Release_state_curNum (p : GenericPool α ε) (obj : PoolObject α) (now : Int)
    (h : p.curNum ≤ p.maxCap) :
    (Release p obj now).state.curNum ≤ (Release p obj now).state.maxCap := by
  unfold Release
  split
  · simpa [GoResult.state] using h
  · split
    · simpa [GoResult.state] using h
    · split
      · simpa [GoResult.state] using h
      · split
        · simpa [GoResult.state] using h
        · simpa [GoResult.state] using h

theorem Close_state_curNum (p : GenericPool α ε) (obj : PoolObject α)
    (h : p.curNum ≤ p.maxCap) :
    (Close p obj).state.curNum ≤ (Close p obj).state.maxCap := by
  unfold Close
  split
  · simpa [GoResult.state] using h
  · simp [GoResult.state]; omega

theorem Shutdown_state_curNum (p : GenericPool α ε)
    (h : p.curNum ≤ p.maxCap) :
    (Shutdown p).state.curNum ≤ (Shutdown p).state.maxCap := by
  unfold Shutdown
  split
  · simpa [GoResult.state] using h
  · split
    · simpa [GoResult.state] using h
    · dsimp only
      split
      · simp [GoResult.state]; omega
      · simp [GoResult.state]; omega

/-! ### C2 -/

/-- C2 (amended): the upper half of the invariant holds — `curNum ≤ maxCap`
in every state reachable from a construction by any operation sequence.  The
lower half (`0 ≤ curNum`) fails; see the counterexample. -/
theorem reachable_curNum_le_maxCap {α ε : Type} [Inhabited α] (p : GenericPool α ε)
    (h : Reachable p) : p.curNum ≤ p.maxCap := by
  induction h with
  | init config now q hq =>
    obtain ⟨hmax, hmm, rfl⟩ := NewGenericPool_some_inv hq
    have hlen := warmupLoop_length_le config.FactoryFunc now config.Min.toNat 0
    simp [mkWarm]
    omega
  | step q r hq hstep ih =>
    cases hstep with
    | acquire now => exact Acquire_state_curNum q now ih
    | release obj now => exact Release_state_curNum q obj now ih
    | close obj => exact Close_state_curNum q obj ih
    | shutdown => exact Shutdown_state_curNum q ih

def c2cfg : PoolConfig Nat Nat :=
  { Min := 1, Max := 1, LiftTime := 0,
    FactoryFunc := fun _ => .ok 5, CloseFunc := fun _ => none }

def c2p0 : GenericPool Nat Nat :=
  { poolBuf := [⟨0, 5⟩], poolCap := 1, poolChClosed := false, maxCap := 1,
    minCap := 1, curNum := 1, closed := false, maxLifeTime := 0,
    factoryFunc := fun _ => .ok 5, closeFunc := fun _ => none,
    factoryCalls := 1, closeCalls := 0 }

def c2p1 : GenericPool Nat Nat := (Close c2p0 ⟨0, 5⟩).state

def c2p2 : GenericPool Nat Nat := (Close c2p1 ⟨0, 5⟩).state

/-- C2 counterexample: two successful `Close` calls on a pool constructed
with `Min = Max = 1` drive `curNum` to `-1`, a reachable state violating
`0 ≤ liveCount`. -/
theorem curNum_nonneg_counterexample :
    Reachable c2p2 ∧ c2p2.curNum < 0 := by
  refine ⟨?_, by decide⟩
  have h0 : Reachable c2p0 := Reachable.init c2cfg 0 c2p0 rfl
  have h1 : Reachable c2p1 := Reachable.step c2p0 c2p1 h0 (Step.close c2p0 ⟨0, 5⟩)
  exact Reachable.step c2p1 c2p2 h1 (Step.close c2p1 ⟨0, 5⟩)

theorem reachable_curNum_le_maxCap_witness : c2p0.curNum ≤ c2p0.maxCap :=
  reachable_curNum_le_maxCap c2p0 (Reachable.init c2cfg 0 c2p0 rfl)

/-! ### C1 -/

/-- C1: when `ttl > 0`, every successful `Acquire` returns a resource whose
age is strictly below `ttl` (`now - CreateTime < maxLifeTime`, i.e. the
returned object is not `isLiftTimeOut`); moreover a resource obtained by
`getOrCreate` that is expired is discarded and the loop retries instead of
returning it. -/
theorem acquire_ttl_spec {α ε : Type} [Inhabited α] (p p' : GenericPool α ε)
    (now : Int) (obj : PoolObject α) (httl : 0 < p.maxLifeTime)
    (hok : Acquire p now = .ok p' obj) :
    (now - obj.CreateTime < p.maxLifeTime ∧ isLiftTimeOut p' obj now = false) ∧
    (∀ (n : Nat) (q q' : GenericPool α ε) (o : PoolObject α),
      getOrCreate q now = .ok q' o → isLiftTimeOut q' o now = true →
      acquireLoop now (n + 1) q = acquireLoop now n q') := by
  constructor
  · unfold Acquire at hok
    split at hok
    · cases hok
    · have hft := acquireLoop_ok_not_timeout _ hok
      have hml := acquireLoop_ok_maxLifeTime _ hok
      refine ⟨?_, hft⟩
      unfold isLiftTimeOut at hft
      rw [hml] at hft
      split at hft
      · omega
      · simp only [decide_eq_false_iff_not, not_le] at hft
        omega
  · intro n q q' o heq hexp
    simp [acquireLoop, heq, hexp]

def c1pool : GenericPool Nat Nat :=
  { poolBuf := [⟨0, 7⟩], poolCap := 5, poolChClosed := false, maxCap := 5,
    minCap := 1, curNum := 1, closed := false, maxLifeTime := 5,
    factoryFunc := fun i => .ok i, closeFunc := fun _ => none,
    factoryCalls := 1, closeCalls := 0 }

def c1pool' : GenericPool Nat Nat := { c1pool with poolBuf := [] }

theorem acquire_ttl_spec_witness :
    ((3 : Int) - (PoolObject.mk 0 7 : PoolObject Nat).CreateTime < c1pool.maxLifeTime ∧
      isLiftTimeOut c1pool' ⟨0, 7⟩ 3 = false) ∧
    (∀ (n : Nat) (q q' : GenericPool Nat Nat) (o : PoolObject Nat),
      getOrCreate q 3 = .ok q' o → isLiftTimeOut q' o 3 = true →
      acquireLoop 3 (n + 1) q = acquireLoop 3 n q') :=
  acquire_ttl_spec c1pool c1pool' 3 ⟨0, 7⟩ (by decide) rfl

/-! ### C3 -/

theorem drainLoop_all_none (cf : α → Option ε) :
    ∀ (l : List (PoolObject α)), (∀ o ∈ l, cf o.Object = none) →
      drainLoop cf l = ⟨[], l.length, l.length, none⟩
  | [], _ => by simp [drainLoop]
  | obj :: rest, h => by
    have hh : cf obj.Object = none := h obj (by simp)
    have ih := drainLoop_all_none cf rest (fun o ho => h o (by simp [ho]))
    simp [drainLoop, hh, ih]

/-- C3: `Shutdown` on an open pool whose destructor succeeds on every idle
resource destroys each of them exactly once (`closeCalls` grows by the idle
count, `curNum` drops by it), sets the closed flag, and afterwards every
`Acquire`, `Release` or `Shutdown` returns `PoolClosed` with the state (and
hence `closeCalls`) unchanged; and whenever `Shutdown` returns a destructor
error the closed flag is still false. -/
theorem shutdown_spec {α ε : Type} [Inhabited α] (p : GenericPool α ε)
    (hclosed : p.closed = false) (hch : p.poolChClosed = false) :
    ((∀ o ∈ p.poolBuf, p.closeFunc o.Object = none) →
      ∃ p', Shutdown p = .ok p' () ∧
        IsClosed p' = true ∧
        p'.closeCalls = p.closeCalls + p.poolBuf.length ∧
        p'.curNum = p.curNum - (p.poolBuf.length : Int) ∧
        Len p' = 0 ∧
        (∀ now, Acquire p' now = .err p' .poolClosed) ∧
        (∀ obj now, Release p' obj now = .err p' .poolClosed) ∧
        Shutdown p' = .err p' .poolClosed) ∧
    (∀ (p' : GenericPool α ε) (e : PoolErr ε),
      Shutdown p = .err p' e → p'.closed = false ∧
        p'.poolBuf = (drainLoop p.closeFunc p.poolBuf).remaining ∧
        p'.curNum = p.curNum - ((drainLoop p.closeFunc p.poolBuf).drained : Int) ∧
        p'.closeCalls = p.closeCalls + (drainLoop p.closeFunc p.poolBuf).calls ∧
        ∃ e', e = PoolErr.external e' ∧
          (drainLoop p.closeFunc p.poolBuf).firstErr = some e') := by
  constructor
  · intro hall
    have hd := drainLoop_all_none p.closeFunc p.poolBuf hall
    refine ⟨{ p with
              poolChClosed := true, poolBuf := ([] : List (PoolObject α)),
              curNum := p.curNum - (p.poolBuf.length : Int),
              closeCalls := p.closeCalls + p.poolBuf.length, closed := true },
            ?_, rfl, rfl, rfl, rfl, ?_, ?_, ?_⟩
    · unfold Shutdown
      simp [hclosed, hch, hd]
    · intro now; simp [Acquire]
    · intro obj now; simp [Release]
    · simp [Shutdown]
  · intro p' e hfail
    unfold Shutdown at hfail
    split at hfail
    · rename_i hc; rw [hclosed] at hc; simp at hc
    · split at hfail
      · cases hfail
      · dsimp only at hfail
        split at hfail
        · rename_i e1 herr
          cases hfail
          exact ⟨hclosed, rfl, rfl, rfl, e1, rfl, herr⟩
        · cases hfail

def c3pool : GenericPool Nat Nat :=
  { poolBuf := [⟨0, 0⟩, ⟨0, 1⟩, ⟨0, 2⟩], poolCap := 5, poolChClosed := false,
    maxCap := 5, minCap := 3, curNum := 3, closed := false, maxLifeTime := 5,
    factoryFunc := fun i => .ok i, closeFunc := fun _ => none,
    factoryCalls := 3, closeCalls := 0 }

theorem shutdown_spec_witness :
    ((∀ o ∈ c3pool.poolBuf, c3pool.closeFunc o.Object = none) →
      ∃ p', Shutdown c3pool = .ok p' () ∧
        IsClosed p' = true ∧
        p'.closeCalls = c3pool.closeCalls + c3pool.poolBuf.length ∧
        p'.curNum = c3pool.curNum - (c3pool.poolBuf.length : Int) ∧
        Len p' = 0 ∧
        (∀ now, Acquire p' now = .err p' .poolClosed) ∧
        (∀ obj now, Release p' obj now = .err p' .poolClosed) ∧
        Shutdown p' = .err p' .poolClosed) ∧
    (∀ (p' : GenericPool Nat Nat) (e : PoolErr Nat),
      Shutdown c3pool = .err p' e → p'.closed = false ∧
        p'.poolBuf = (drainLoop c3pool.closeFunc c3pool.poolBuf).remaining ∧
        p'.curNum = c3pool.curNum -
          ((drainLoop c3pool.closeFunc c3pool.poolBuf).drained : Int) ∧
        p'.closeCalls = c3pool.closeCalls +
          (drainLoop c3pool.closeFunc c3pool.poolBuf).calls ∧
        ∃ e', e = PoolErr.external e' ∧
          (drainLoop c3pool.closeFunc c3pool.poolBuf).firstErr = some e') :=
  shutdown_spec c3pool rfl rfl

/-! ### C4 -/

def c4cfg : PoolConfig Nat Nat :=
  { Min := 1, Max := 1, LiftTime := 0,
    FactoryFunc := fun _ => .ok 5, CloseFunc := fun _ => none }

def c4pool : GenericPool Nat Nat :=
  { poolBuf := [⟨0, 5⟩], poolCap := 1, poolChClosed := false, maxCap := 1,
    minCap := 1, curNum := 1, closed := false, maxLifeTime := 0,
    factoryFunc := fun _ => .ok 5, closeFunc := fun _ => none,
    factoryCalls := 1, closeCalls := 0 }

/-- C4 counterexample: on a reachable open pool whose idle buffer is full
(constructed with `Min = Max = 1`), releasing an unexpired resource does not
insert-and-succeed — the channel send blocks. -/
theorem release_full_counterexample :
    Reachable c4pool ∧ c4pool.closed = false ∧
    isLiftTimeOut c4pool ⟨0, 9⟩ 0 = false ∧
    Release c4pool ⟨0, 9⟩ 0 = .blocked c4pool :=
  ⟨Reachable.init c4cfg 0 c4pool rfl, rfl, rfl, rfl⟩

/-- C4 (amended): `Release` on a closed pool returns `PoolClosed` without
inserting; releasing an expired resource on an open pool succeeds but leaves
the buffer and `curNum` untouched; releasing an unexpired resource on an open
pool inserts it and succeeds, provided the idle channel has not been closed
by a failed shutdown and the buffer is not full (a full buffer blocks, a
closed channel panics). -/
theorem release_spec {α ε : Type} (p : GenericPool α ε) (obj : PoolObject α)
    (now : Int) :
    (p.closed = true → Release p obj now = .err p .poolClosed) ∧
    (p.closed = false → isLiftTimeOut p obj now = true →
      Release p obj now = .ok p ()) ∧
    (p.closed = false → isLiftTimeOut p obj now = false → p.poolChClosed = false →
      p.poolBuf.length < p.poolCap →
      Release p obj now = .ok { p with poolBuf := p.poolBuf ++ [obj] } ()) := by
  refine ⟨?_, ?_, ?_⟩
  · intro h; simp [Release, h]
  · intro h1 h2; simp [Release, h1, h2]
  · intro h1 h2 h3 h4
    simp [Release, h1, h2, h3, Nat.not_le.mpr h4]

def c4closed : GenericPool Nat Nat := { c4pool with closed := true }

def c4open : GenericPool Nat Nat :=
  { poolBuf := [⟨0, 5⟩], poolCap := 3, poolChClosed := false, maxCap := 3,
    minCap := 1, curNum := 1, closed := false, maxLifeTime := 5,
    factoryFunc := fun _ => .ok 5, closeFunc := fun _ => none,
    factoryCalls := 1, closeCalls := 0 }

theorem release_spec_witness :
    Release c4closed ⟨0, 9⟩ 0 = .err c4closed .poolClosed ∧
    Release c4open ⟨0, 9⟩ 100 = .ok c4open () ∧
    Release c4open ⟨0, 9⟩ 1 = .ok { c4open with poolBuf := c4open.poolBuf ++ [⟨0, 9⟩] } () :=
  ⟨(release_spec c4closed ⟨0, 9⟩ 0).1 rfl,
   (release_spec c4open ⟨0, 9⟩ 100).2.1 rfl rfl,
   (release_spec c4open ⟨0, 9⟩ 1).2.2 rfl rfl rfl (by decide)⟩

/-! ### C7 -/

/-- C7: `Close` invokes the destructor on the wrapped value; on failure the
error is propagated and `curNum` is unchanged, on success `curNum` drops by
exactly one; in both cases the idle buffer and the closed flag are untouched
and the destructor ran exactly once. -/
theorem close_spec {α ε : Type} (p : GenericPool α ε) (obj : PoolObject α) :
    (∀ e, p.closeFunc obj.Object = some e →
      Close p obj = .err { p with closeCalls := p.closeCalls + 1 } (.external e)) ∧
    (p.closeFunc obj.Object = none →
      Close p obj = .ok { p with closeCalls := p.closeCalls + 1,
                                 curNum := p.curNum - 1 } ()) ∧
    (Close p obj).state.poolBuf = p.poolBuf ∧
    (Close p obj).state.closed = p.closed ∧
    (Close p obj).state.closeCalls = p.closeCalls + 1 := by
  unfold Close
  cases h : p.closeFunc obj.Object with
  | none => simp [GoResult.state]
  | some e => simp [GoResult.state]

def c7pool : GenericPool Nat Nat :=
  { poolBuf := [], poolCap := 2, poolChClosed := false, maxCap := 2,
    minCap := 1, curNum := 2, closed := false, maxLifeTime := 0,
    factoryFunc := fun i => .ok i, closeFunc := fun x => if x = 9 then some 42 else none,
    factoryCalls := 2, closeCalls := 0 }

theorem close_spec_witness :
    Close c7pool ⟨0, 9⟩ = .err { c7pool with closeCalls := c7pool.closeCalls + 1 }
        (.external 42) ∧
    Close c7pool ⟨0, 1⟩ = .ok { c7pool with closeCalls := c7pool.closeCalls + 1,
                                            curNum := c7pool.curNum - 1 } () :=
  ⟨(close_spec c7pool ⟨0, 9⟩).1 42 rfl,
   (close_spec c7pool ⟨0, 1⟩).2.1 rfl⟩

/-! ### C5 -/

theorem isLiftTimeOut_fresh (q : GenericPool α ε) (x : α) (now : Int) :
    isLiftTimeOut q ⟨now, x⟩ now = false := by
  unfold isLiftTimeOut
  split
  · rfl
  · rename_i hpos
    simp only [decide_eq_false_iff_not, not_le]
    omega

theorem acquire_empty_create [Inhabited α] (p : GenericPool α ε) (t : Int) (r : α)
    (hcl : p.closed = false) (hch : p.poolChClosed = false) (hbuf : p.poolBuf = [])
    (hcur : p.curNum < p.maxCap) (hfac : p.factoryFunc p.factoryCalls = Except.ok r) :
    Acquire p t = .ok { p with factoryCalls := p.factoryCalls + 1,
                               curNum := p.curNum + 1 } ⟨t, r⟩ := by
  have hg : getOrCreate p t = .ok { p with factoryCalls := p.factoryCalls + 1,
                                           curNum := p.curNum + 1 } ⟨t, r⟩ := by
    unfold getOrCreate
    rw [hbuf]
    simp [hch, hfac, not_le.mpr hcur]
  unfold Acquire
  simp [hcl, hbuf, acquireLoop, hg, isLiftTimeOut_fresh]

/-- C5: for every valid configuration (`0 ≤ Min ≤ Max`, `Max > 0`),
construction calls the factory exactly `Min` times (hence at most `Min`),
skips individual failures, ends with `idleCount ≤ Min` and
`liveCount = idleCount ≤ Max`, reports `ErrFactoryFunc` iff `liveCount`
ended at 0 — while still returning an open pool on which a later `Acquire`
succeeds as soon as the factory does. -/
theorem construction_spec {α ε : Type} [Inhabited α] (config : PoolConfig α ε)
    (now : Int) (hmin : 0 ≤ config.Min) (hmm : config.Min ≤ config.Max)
    (hmax : 0 < config.Max) :
    ∃ p, (NewGenericPool config now).1 = some p ∧
      p.factoryCalls = config.Min.toNat ∧
      (Len p : Int) ≤ config.Min ∧
      p.curNum = (Len p : Int) ∧
      p.curNum ≤ config.Max ∧
      ((NewGenericPool config now).2 = some PoolErr.factoryFunc ↔ p.curNum = 0) ∧
      ((NewGenericPool config now).2 = none ↔ p.curNum ≠ 0) ∧
      p.closed = false ∧ p.poolChClosed = false ∧
      (∀ (t : Int) (r : α), p.curNum = 0 → p.factoryFunc p.factoryCalls = Except.ok r →
        Acquire p t = .ok { p with factoryCalls := p.factoryCalls + 1,
                                   curNum := p.curNum + 1 } ⟨t, r⟩) := by
  have heq := NewGenericPool_eq config now hmax hmm
  have hlen := warmupLoop_length_le config.FactoryFunc now config.Min.toNat 0
  refine ⟨mkWarm config now, by rw [heq], ?_, ?_, rfl, ?_, ?_, ?_, rfl, rfl, ?_⟩
  · simp [mkWarm, warmupLoop_calls]
  · simp only [Len, mkWarm]
    omega
  · simp only [mkWarm]
    omega
  · rw [heq]
    by_cases hz : (mkWarm config now).curNum = 0 <;> simp [hz]
  · rw [heq]
    by_cases hz : (mkWarm config now).curNum = 0 <;> simp [hz]
  · intro t r hz hfac
    have hb : (mkWarm config now).poolBuf = [] := by
      simp only [mkWarm] at hz ⊢
      have : (warmupLoop config.FactoryFunc now 0 config.Min.toNat).1.length = 0 := by
        omega
      exact List.length_eq_zero.mp this
    refine acquire_empty_create _ t r rfl rfl hb ?_ hfac
    rw [hz]
    simpa [mkWarm] using hmax

def c5cfg : PoolConfig Nat Nat :=
  { Min := 2, Max := 3, LiftTime := 0,
    FactoryFunc := fun i => if i = 0 then .error 7 else .ok i,
    CloseFunc := fun _ => none }

theorem construction_spec_witness :
    ∃ p, (NewGenericPool c5cfg 0).1 = some p ∧
      p.factoryCalls = c5cfg.Min.toNat ∧
      (Len p : Int) ≤ c5cfg.Min ∧
      p.curNum = (Len p : Int) ∧
      p.curNum ≤ c5cfg.Max ∧
      ((NewGenericPool c5cfg 0).2 = some PoolErr.factoryFunc ↔ p.curNum = 0) ∧
      ((NewGenericPool c5cfg 0).2 = none ↔ p.curNum ≠ 0) ∧
      p.closed = false ∧ p.poolChClosed = false ∧
      (∀ (t : Int) (r : Nat), p.curNum = 0 → p.factoryFunc p.factoryCalls = Except.ok r →
        Acquire p t = .ok { p with factoryCalls := p.factoryCalls + 1,
                                   curNum := p.curNum + 1 } ⟨t, r⟩) :=
  construction_spec c5cfg 0 (by decide) (by decide) (by decide)

/-! ### C6 -/

def c6cfg : PoolConfig Nat Nat :=
  { Min := 3, Max := 5, LiftTime := 5,
    FactoryFunc := fun i => .ok i, CloseFunc := fun _ => none }

def c6p0 : GenericPool Nat Nat :=
  { poolBuf := [⟨0, 0⟩, ⟨0, 1⟩, ⟨0, 2⟩], poolCap := 5, poolChClosed := false,
    maxCap := 5, minCap := 3, curNum := 3, closed := false, maxLifeTime := 5,
    factoryFunc := fun i => .ok i, closeFunc := fun _ => none,
    factoryCalls := 3, closeCalls := 0 }

def c6p1 : GenericPool Nat Nat := (Acquire c6p0 1).state

def c6p2 : GenericPool Nat Nat := (Acquire c6p1 1).state

def c6p3 : GenericPool Nat Nat := (Acquire c6p2 1).state

def c6p4 : GenericPool Nat Nat := (Acquire c6p3 1).state

/-- C6: with an empty idle buffer, an open channel and `curNum < maxCap`,
`getOrCreate` invokes the factory: on success it increments `curNum` and
returns the fresh value stamped with the current time, on failure it
propagates the factory's error with `curNum` unchanged.  Concretely, after
construction with `Min = 3`, `Max = 5` and an always-succeeding factory,
four sequential acquires succeed: the first three return the pre-warmed
objects (created at time 0), the fourth a newly created one (stamped at
acquire time), leaving `curNum = 4`. -/
theorem getOrCreate_spec {α ε : Type} [Inhabited α] (p : GenericPool α ε)
    (now : Int) :
    (p.poolBuf = [] → p.poolChClosed = false → p.curNum < p.maxCap →
      (∀ e, p.factoryFunc p.factoryCalls = .error e →
        getOrCreate p now = .err { p with factoryCalls := p.factoryCalls + 1 }
          (.external e)) ∧
      (∀ r, p.factoryFunc p.factoryCalls = .ok r →
        getOrCreate p now = .ok { p with factoryCalls := p.factoryCalls + 1,
                                         curNum := p.curNum + 1 } ⟨now, r⟩)) ∧
    (NewGenericPool c6cfg 0).1 = some c6p0 ∧
    Acquire c6p0 1 = .ok c6p1 ⟨0, 0⟩ ∧
    Acquire c6p1 1 = .ok c6p2 ⟨0, 1⟩ ∧
    Acquire c6p2 1 = .ok c6p3 ⟨0, 2⟩ ∧
    Acquire c6p3 1 = .ok c6p4 ⟨1, 3⟩ ∧
    c6p4.curNum = 4 := by
  refine ⟨?_, rfl, rfl, rfl, rfl, rfl, rfl⟩
  intro hbuf hch hcur
  constructor
  · intro e hfac
    unfold getOrCreate
    rw [hbuf]
    simp [hch, hfac, not_le.mpr hcur]
  · intro r hfac
    unfold getOrCreate
    rw [hbuf]
    simp [hch, hfac, not_le.mpr hcur]

def c6empty : GenericPool Nat Nat :=
  { poolBuf := [], poolCap := 5, poolChClosed := false,
    maxCap := 5, minCap := 3, curNum := 4, closed := false, maxLifeTime := 5,
    factoryFunc := fun i => .ok i, closeFunc := fun _ => none,
    factoryCalls := 4, closeCalls := 0 }

theorem getOrCreate_spec_witness :
    getOrCreate c6empty 2 = .ok { c6empty with factoryCalls := c6empty.factoryCalls + 1,
                                               curNum := c6empty.curNum + 1 } ⟨2, 4⟩ :=
  ((getOrCreate_spec c6empty 2).1 rfl rfl (by decide)).2 4 rfl

/-! ### C8 -/

/-- C8: construction returns `(nil, ErrInvalidConfig)` exactly when
`Max ≤ 0 ∨ Min > Max`; on any other configuration a pool is returned and the
error, if any, is never `ErrInvalidConfig`. -/
theorem invalid_config_spec {α ε : Type} (config : PoolConfig α ε) (now : Int) :
    (NewGenericPool config now = (none, some PoolErr.invalidConfig) ↔
      (config.Max ≤ 0 ∨ config.Min > config.Max)) ∧
    ((NewGenericPool config now).1.isSome ↔
      ¬ (config.Max ≤ 0 ∨ config.Min > config.Max)) ∧
    (¬ (config.Max ≤ 0 ∨ config.Min > config.Max) →
      (NewGenericPool config now).2 ≠ some PoolErr.invalidConfig) := by
  unfold NewGenericPool
  by_cases hv : (config.Max ≤ 0 ∨ config.Min > config.Max)
  · rw [if_pos hv]
    simp [hv]
  · rw [if_neg hv]
    dsimp only
    split <;> simp [hv]

def c8cfg : PoolConfig Nat Nat :=
  { Min := 2, Max := 1, LiftTime := 0,
    FactoryFunc := fun i => .ok i, CloseFunc := fun _ => none }

theorem invalid_config_spec_witness :
    NewGenericPool c8cfg 0 = (none, some PoolErr.invalidConfig) :=
  (invalid_config_spec c8cfg 0).1.mpr (by decide)

/-! ### C9 -/

/-- C9: after a `Shutdown` that aborted on a destructor error, the idle
channel is closed while the pool's closed flag is still false; from that
state, releasing an unexpired resource runs into a send on a closed channel
(a runtime panic, not an error return), and a second `Shutdown` runs into a
`close` of an already-closed channel (a panic as well). -/
theorem failed_shutdown_panics {α ε : Type} [Inhabited α]
    (p p' : GenericPool α ε) (e : PoolErr ε)
    (hclosed : p.closed = false)
    (hfail : Shutdown p = .err p' e) :
    p'.poolChClosed = true ∧ p'.closed = false ∧
    (∀ (obj : PoolObject α) (now : Int), isLiftTimeOut p' obj now = false →
      Release p' obj now = .panicked p') ∧
    Shutdown p' = .panicked p' := by
  unfold Shutdown at hfail
  split at hfail
  · rename_i hc
    rw [hclosed] at hc
    simp at hc
  · split at hfail
    · cases hfail
    · dsimp only at hfail
      split at hfail
      · cases hfail
        refine ⟨rfl, hclosed, ?_, ?_⟩
        · intro obj now hexp
          rw [hclosed] at hexp
          unfold Release
          simp [hclosed, hexp]
        · unfold Shutdown
          simp [hclosed]
      · cases hfail

def c9pool : GenericPool Nat Nat :=
  { poolBuf := [⟨0, 7⟩], poolCap := 2, poolChClosed := false, maxCap := 2,
    minCap := 1, curNum := 1, closed := false, maxLifeTime := 0,
    factoryFunc := fun i => .ok i, closeFunc := fun _ => some 99,
    factoryCalls := 1, closeCalls := 0 }

def c9pool' : GenericPool Nat Nat := (Shutdown c9pool).state

theorem failed_shutdown_panics_witness :
    c9pool'.poolChClosed = true ∧ c9pool'.closed = false ∧
    (∀ (obj : PoolObject Nat) (now : Int), isLiftTimeOut c9pool' obj now = false →
      Release c9pool' obj now = .panicked c9pool') ∧
    Shutdown c9pool' = .panicked c9pool' :=
  failed_shutdown_panics c9pool c9pool' (.external 99) rfl rfl

/-! ### C10 -/

/-- C10: for `Min ≤ 0` (including the negative values that validation lets
through) and `Max > 0`, construction makes zero factory calls yet reports
`ErrFactoryFunc`, returning an open, usable pool with zero idle objects. -/
theorem min_zero_construction_spec {α ε : Type} (config : PoolConfig α ε)
    (now : Int) (hmin : config.Min ≤ 0) (hmax : 0 < config.Max) :
    ∃ p, NewGenericPool config now = (some p, some PoolErr.factoryFunc) ∧
      p.factoryCalls = 0 ∧ Len p = 0 ∧ p.curNum = 0 ∧
      p.closed = false ∧ p.poolChClosed = false := by
  have hmm : config.Min ≤ config.Max := by omega
  have heq := NewGenericPool_eq config now hmax hmm
  have h0 : config.Min.toNat = 0 := by omega
  have hz : (mkWarm config now).curNum = 0 := by
    simp [mkWarm, h0, warmupLoop]
  refine ⟨mkWarm config now, ?_, ?_, ?_, hz, rfl, rfl⟩
  · rw [heq, if_pos hz]
  · simp [mkWarm, h0, warmupLoop]
  · simp [Len, mkWarm, h0, warmupLoop]

def c10cfg : PoolConfig Nat Nat :=
  { Min := 0, Max := 4, LiftTime := 0,
    FactoryFunc := fun i => .ok i, CloseFunc := fun _ => none }

theorem min_zero_construction_spec_witness :
    ∃ p, NewGenericPool c10cfg 0 = (some p, some PoolErr.factoryFunc) ∧
      p.factoryCalls = 0 ∧ Len p = 0 ∧ p.curNum = 0 ∧
      p.closed = false ∧ p.poolChClosed = false :=
  min_zero_construction_spec c10cfg 0 (by decide) (by decide)

end GoPool
